import Mathlib

/-!
Verification development for the document-ingestion service
(`src/services/documentService.ts` of the `writer` repository).

The service orchestrates: file validation → document processing
(parse + chunk) → embedding generation → vector storage, returning a
`DocumentStats` record per run.  The collaborating classes
(`DocumentProcessor`, `EmbeddingManager`, `VectorStore`) are imported by
the service but their sources are not part of the repository snapshot;
they are modelled as abstract function fields (their observable
interface), and the Chunker's algorithm is modelled from the spec.

JavaScript conventions that matter for faithfulness:
  * `vectors[index]` on an out-of-range index yields `undefined`;
    we model a possibly-undefined vector as `Option V` and array
    indexing as `l[i]?`.
  * `textChunks.chunks || []` falls back to `[]` when `chunks` is
    `undefined`/`null` (a present-but-empty array is kept, since `[]`
    is truthy in JS); we model `chunks` as `Option (List String)` and
    the fallback as `Option.getD`.
  * `process.env.X || d` falls back to `d` when the variable is unset
    or set to the empty string (both are falsy).
  * a thrown `Error(msg)` caught by the `catch` block surfaces as
    `error.message = msg`; we model fallible calls as
    `Except String α`.
-/

/-- The observable part of a DOM `File`: name, byte size and declared
MIME type (`file.type`). -/
structure File where
  name : String
  size : Nat
  type : String
  deriving Repr, DecidableEq

/-- `DocumentStats.status` values (`'pending' | 'processing' |
'completed' | 'error'`). -/
inductive DocStatus where
  | pending
  | processing
  | completed
  | error
  deriving Repr, DecidableEq

/-- The `DocumentStats` interface of `documentService.ts`
(lines 5-12). `error?` is optional, hence `Option String`. -/
structure DocumentStats where
  fileName : String
  fileSize : Nat
  totalChunks : Nat
  processingTime : Nat
  status : DocStatus
  error : Option String := none
  deriving Repr, DecidableEq

/-- The `ProcessingConfig` interface (lines 14-18). -/
structure ProcessingConfig where
  chunkSize : Nat
  overlapSize : Nat
  model : String
  deriving Repr, DecidableEq

/-- The options object passed to `documentProcessor.processDocument`
(lines 43-46): only `chunkSize` and `overlapSize`. -/
structure ChunkOptions where
  chunkSize : Nat
  overlapSize : Nat
  deriving Repr, DecidableEq

/-- The metadata of a stored vector record (lines 60-63). -/
structure RecordMetadata where
  source : String
  index : Nat
  deriving Repr, DecidableEq

/-- The payload of a stored vector record (lines 58-64). -/
structure RecordPayload where
  text : String
  metadata : RecordMetadata
  deriving Repr, DecidableEq

/-- One element of the `vectorDocs` array built at lines 55-65.
`vector` is `Option V` because `vectors[index]` can be `undefined`
when the embedding result is shorter than the chunk list. -/
structure VectorRecord (V : Type) where
  id : String
  vector : Option V
  payload : RecordPayload
  deriving Repr, DecidableEq

/-- Result of `documentProcessor.processDocument`; the service only
reads its `chunks` field, guarded by `|| []` (line 50), so `chunks`
may be absent. -/
structure ProcessedDocument where
  chunks : Option (List String)
  deriving Repr, DecidableEq

/-- Interface of the `DocumentProcessor` collaborator (imported, source
not in the repository): parse + chunk a file, or fail. -/
structure DocumentProcessor where
  processDocument : File → ChunkOptions → Except String ProcessedDocument

/-- Interface of the `EmbeddingManager` collaborator: constructed from
api key, base url and model name (lines 27-31), and able to embed a
list of chunk strings. `V` is the vector type. -/
structure EmbeddingManager (V : Type) where
  apiKey : String
  apiBase : String
  model : String
  embedDocuments : List String → Except String (List V)

/-- Interface of the `VectorStore` collaborator: store records, look up
per-file stats, list stored documents. -/
structure VectorStore (V : Type) where
  storeVectors : List (VectorRecord V) → Except String Unit
  getDocumentStats : String → Option DocumentStats
  listDocuments : List String

/-- The `DocumentService` class fields (lines 20-23). -/
structure DocumentService (V : Type) where
  documentProcessor : DocumentProcessor
  embeddingManager : EmbeddingManager V
  vectorStore : VectorStore V

/-- An observable outbound call made by `uploadDocument` to one of its
three collaborators, in order. -/
inductive Event (V : Type) where
  | processCall (file : File) (options : ChunkOptions)
  | embedCall (texts : List String)
  | storeCall (records : List (VectorRecord V))
  deriving Repr, DecidableEq

/-- The `allowedTypes` array of `validateFile` (lines 90-96). -/
def allowedTypes : List String :=
  ["application/pdf",
   "text/plain",
   "text/markdown",
   "application/msword",
   "application/vnd.openxmlformats-officedocument.wordprocessingml.document"]

/-- `validateFile` (lines 89-98): `allowedTypes.includes(file.type)`. -/
def validateFile (file : File) : Bool :=
  allowedTypes.contains file.type

/-- The `DocumentStats` built by the `catch` block (lines 77-86):
status `error`, `totalChunks: 0`, the caught message, and the file's
name and size; `processingTime` is `Date.now()` at return time,
modelled by the ambient clock value `now`. -/
def errorStats (file : File) (now : Nat) (msg : String) : DocumentStats :=
  { fileName := file.name
    fileSize := file.size
    totalChunks := 0
    processingTime := now
    status := DocStatus.error
    error := some msg }

/-- The `vectorDocs` array built at lines 55-65: one record per element
of `textArray`, with id `` `${file.name}-${index}` ``, vector
`vectors[index]` (possibly `undefined`), and payload carrying the chunk
text, the source file name and the chunk index. -/
def buildVectorDocs {V : Type} (file : File) (textArray : List String)
    (vectors : List V) : List (VectorRecord V) :=
  textArray.enum.map (fun p =>
    { id := file.name ++ "-" ++ toString p.1
      vector := vectors[p.1]?
      payload :=
        { text := p.2
          metadata := { source := file.name, index := p.1 } } })

/-- `uploadDocument` (lines 35-87).  `now` models `Date.now()` at the
point the result object is built.  Besides the returned
`DocumentStats`, the ordered list of collaborator calls actually made
is returned, so that "no network call" claims are statable. -/
def uploadDocument {V : Type} (svc : DocumentService V) (now : Nat)
    (file : File) (config : ProcessingConfig) :
    DocumentStats × List (Event V) :=
  if validateFile file then
    let options : ChunkOptions :=
      { chunkSize := config.chunkSize, overlapSize := config.overlapSize }
    match svc.documentProcessor.processDocument file options with
    | Except.error e => (errorStats file now e, [Event.processCall file options])
    | Except.ok textChunks =>
      let textArray := textChunks.chunks.getD []
      match svc.embeddingManager.embedDocuments textArray with
      | Except.error e =>
        (errorStats file now e,
         [Event.processCall file options, Event.embedCall textArray])
      | Except.ok vectors =>
        let vectorDocs := buildVectorDocs file textArray vectors
        match svc.vectorStore.storeVectors vectorDocs with
        | Except.error e =>
          (errorStats file now e,
           [Event.processCall file options, Event.embedCall textArray,
            Event.storeCall vectorDocs])
        | Except.ok _ =>
          ({ fileName := file.name
             fileSize := file.size
             totalChunks := textArray.length
             processingTime := now
             status := DocStatus.completed
             error := none },
           [Event.processCall file options, Event.embedCall textArray,
            Event.storeCall vectorDocs])
  else
    (errorStats file now "不支持的文件格式", [])

/-- Modelled from the spec: the Chunker loop of the `DocumentProcessor`
(its source file `documentProcessor.ts` is not in the repository
snapshot).  Per the spec's Chunker contract, chunk *i* starts at offset
`i*(chunkSize - overlapSize)` and spans up to `chunkSize` characters,
the final chunk may be shorter, consecutive chunks share exactly
`overlapSize` characters, and a text of length at most `chunkSize`
yields exactly one chunk.  The loop emits the chunk at `start` and
advances by `chunkSize - overlapSize` while the current chunk stops
short of the end of the text. -/
def chunkLoop (text : List Char) (chunkSize overlapSize start : Nat) :
    List (List Char) :=
  if h : overlapSize < chunkSize ∧ start + chunkSize < text.length then
    (text.drop start).take chunkSize ::
      chunkLoop text chunkSize overlapSize (start + (chunkSize - overlapSize))
  else
    [(text.drop start).take chunkSize]
termination_by text.length - start
decreasing_by
  obtain ⟨h1, h2⟩ := h
  omega

/-- Modelled from the spec: the Chunker entry point, starting the loop
at offset 0. -/
def chunkText (text : List Char) (chunkSize overlapSize : Nat) :
    List (List Char) :=
  chunkLoop text chunkSize overlapSize 0

/-- The chunk count the spec's formula predicts: `ceil((L - O)/(C - O))`
when `L > C`, else 1 (stated with natural-number ceiling division). -/
def specChunkCount (L C O : Nat) : Nat :=
  if C < L then (L - O + (C - O) - 1) / (C - O) else 1

/-- `getDocumentStats` (lines 100-102): pure delegation to the vector
store. -/
def serviceGetDocumentStats {V : Type} (svc : DocumentService V)
    (fileName : String) : Option DocumentStats :=
  svc.vectorStore.getDocumentStats fileName

/-- `listDocuments` (lines 104-106): pure delegation to the vector
store. -/
def serviceListDocuments {V : Type} (svc : DocumentService V) : List String :=
  svc.vectorStore.listDocuments

/-- JavaScript `a || b` for string-valued environment reads: falls back
to `b` when `a` is unset (`none`) or the empty string (both falsy). -/
def jsOrElse (a : Option String) (b : String) : String :=
  match a with
  | some v => if v = "" then b else v
  | none => b

/-- The `DocumentService` constructor (lines 25-33): builds the
`EmbeddingManager` from `process.env.DEEPSEEK_API_KEY`,
`process.env.DEEPSEEK_API_BASE` and `process.env.EMBEDDING_MODEL`,
each with its `||` fallback.  `penv` models `process.env`; the
processor, the embedding function and the store are the remaining
(unspecified-here) pieces of the collaborators. -/
def mkDocumentService {V : Type} (penv : String → Option String)
    (dp : DocumentProcessor) (embedFn : List String → Except String (List V))
    (vs : VectorStore V) : DocumentService V :=
  { documentProcessor := dp
    embeddingManager :=
      { apiKey := jsOrElse (penv "DEEPSEEK_API_KEY") "mock-api-key"
        apiBase := jsOrElse (penv "DEEPSEEK_API_BASE") "https://api.deepseek.com"
        model := jsOrElse (penv "EMBEDDING_MODEL") "mock-embedding-model"
        embedDocuments := embedFn }
    vectorStore := vs }

/-! ## Helper lemmas -/

theorem buildVectorDocs_length {V : Type} (file : File) (textArray : List String)
    (vectors : List V) :
    (buildVectorDocs file textArray vectors).length = textArray.length := by
  simp [buildVectorDocs]

theorem buildVectorDocs_getElem {V : Type} (file : File) (textArray : List String)
    (vectors : List V) (i : Nat) (hi : i < textArray.length) :
    (buildVectorDocs file textArray vectors)[i]? =
      some { id := file.name ++ "-" ++ toString i
             vector := vectors[i]?
             payload :=
               { text := textArray.get ⟨i, hi⟩
                 metadata := { source := file.name, index := i } } } := by
  simp [buildVectorDocs, List.getElem?_map, List.getElem?_enum,
    List.getElem?_eq_getElem hi]

theorem chunkLoop_length (text : List Char) (C O : Nat) (hO : O < C) (start : Nat) :
    (chunkLoop text C O start).length =
      if start + C < text.length then
        (text.length - start - O + (C - O) - 1) / (C - O)
      else 1 := by
  induction start using chunkLoop.induct text C O with
  | case1 start h ih =>
    rw [chunkLoop]
    simp only [dif_pos h, List.length_cons]
    rw [ih]
    obtain ⟨-, h2⟩ := h
    by_cases h3 : start + (C - O) + C < text.length
    · rw [if_pos h3, if_pos h2]
      have hs : 0 < C - O := by omega
      have e1 : text.length - start - O + (C - O) - 1
          = (text.length - (start + (C - O)) - O + (C - O) - 1) + (C - O) := by omega
      rw [e1, Nat.add_div_right _ hs]
    · rw [if_neg h3, if_pos h2]
      have h5 : 2 * (C - O) ≤ text.length - start - O + (C - O) - 1 := by omega
      have h4 : text.length - start - O + (C - O) - 1 < (2 + 1) * (C - O) := by omega
      rw [Nat.div_eq_of_lt_le h5 h4]
  | case2 start h =>
    rw [chunkLoop]
    simp only [dif_neg h, List.length_singleton]
    rw [if_neg (by tauto)]

theorem chunkLoop_getElem (text : List Char) (C O : Nat) (start : Nat) :
    ∀ i, i < (chunkLoop text C O start).length →
      (chunkLoop text C O start)[i]? =
        some ((text.drop (start + i * (C - O))).take C) := by
  induction start using chunkLoop.induct text C O with
  | case1 start h ih =>
    intro i hi
    rw [chunkLoop] at hi ⊢
    simp only [dif_pos h] at hi ⊢
    match i with
    | 0 => simp
    | j + 1 =>
      simp only [List.getElem?_cons_succ]
      rw [ih j (by simpa using hi)]
      have e1 : start + (C - O) + j * (C - O) = start + (j + 1) * (C - O) := by ring
      rw [e1]
  | case2 start h =>
    intro i hi
    rw [chunkLoop] at hi ⊢
    simp only [dif_neg h] at hi ⊢
    match i with
    | 0 => simp
    | j + 1 => simp at hi

/-! ## Concrete fixtures used by the witness theorems -/

/-- A file whose declared MIME type is outside the supported set. -/
def pngFile : File :=
  { name := "image.png", size := 7, type := "image/png" }

/-- A plain-text file, inside the supported set. -/
def txtFile : File :=
  { name := "notes.txt", size := 42, type := "text/plain" }

/-- The spec's example configuration. -/
def testConfig : ProcessingConfig :=
  { chunkSize := 1000, overlapSize := 200, model := "mock-embedding-model" }

/-- A vector store whose writes always succeed. -/
def okStore : VectorStore Nat :=
  { storeVectors := fun _ => Except.ok ()
    getDocumentStats := fun _ => none
    listDocuments := [] }

/-- A processor producing two chunks for any file. -/
def okProcessor : DocumentProcessor :=
  { processDocument := fun _ _ => Except.ok { chunks := some ["ab", "cd"] } }

/-- A processor producing an empty chunk list for any file. -/
def emptyProcessor : DocumentProcessor :=
  { processDocument := fun _ _ => Except.ok { chunks := some [] } }

/-- An embedding manager mapping each chunk to its length. -/
def okManager : EmbeddingManager Nat :=
  { apiKey := "k", apiBase := "b", model := "m"
    embedDocuments := fun ts => Except.ok (ts.map String.length) }

/-- An embedding manager whose calls always fail. -/
def failManager : EmbeddingManager Nat :=
  { apiKey := "k", apiBase := "b", model := "m"
    embedDocuments := fun _ => Except.error "embed down" }

/-- An embedding manager returning one vector regardless of input size. -/
def shortManager : EmbeddingManager Nat :=
  { apiKey := "k", apiBase := "b", model := "m"
    embedDocuments := fun _ => Except.ok [9] }

/-- Fully successful service. -/
def okService : DocumentService Nat :=
  { documentProcessor := okProcessor, embeddingManager := okManager
    vectorStore := okStore }

/-- Service whose embedding step fails. -/
def failEmbedService : DocumentService Nat :=
  { documentProcessor := okProcessor, embeddingManager := failManager
    vectorStore := okStore }

/-- Service producing an empty chunk list. -/
def emptyChunksService : DocumentService Nat :=
  { documentProcessor := emptyProcessor, embeddingManager := okManager
    vectorStore := okStore }

/-- Service returning fewer vectors than chunks. -/
def shortVectorsService : DocumentService Nat :=
  { documentProcessor := okProcessor, embeddingManager := shortManager
    vectorStore := okStore }

/-! ## Claims -/

/-- C9: for every service, clock, file and config, the `DocumentStats`
returned by `uploadDocument` has a terminal status: `completed` or
`error`, never `pending` or `processing`. -/
theorem claim_C9 {V : Type} (svc : DocumentService V) (now : Nat)
    (file : File) (config : ProcessingConfig) :
    (uploadDocument svc now file config).1.status = DocStatus.completed ∨
    (uploadDocument svc now file config).1.status = DocStatus.error := by
  unfold uploadDocument
  dsimp only
  repeat' split
  all_goals first
  | (left; rfl)
  | (right; rfl)

/-- C7: `getDocumentStats` and `listDocuments` on the service return
exactly what the vector store returns for the same call — pure
delegation, no transformation, filtering or caching. -/
theorem claim_C7 {V : Type} (svc : DocumentService V) (fileName : String) :
    serviceGetDocumentStats svc fileName = svc.vectorStore.getDocumentStats fileName ∧
    serviceListDocuments svc = svc.vectorStore.listDocuments :=
  ⟨rfl, rfl⟩

/-- C2: validation accepts a file iff its declared MIME type is one of
exactly the five supported types; for every other type,
`uploadDocument` returns the error `DocumentStats` immediately with no
collaborator call (empty event list). -/
theorem claim_C2 {V : Type} (svc : DocumentService V) (now : Nat)
    (file : File) (config : ProcessingConfig) :
    (validateFile file = true ↔
      file.type ∈ ["application/pdf", "text/plain", "text/markdown",
        "application/msword",
        "application/vnd.openxmlformats-officedocument.wordprocessingml.document"]) ∧
    (validateFile file = false →
      uploadDocument svc now file config =
        (errorStats file now "不支持的文件格式", [])) := by
  constructor
  · simp [validateFile, allowedTypes]
  · intro hv
    simp [uploadDocument, hv]

/-- Witness for C2 at a concrete `.png` file: validation rejects it and
`uploadDocument` returns the error stats with no collaborator call. -/
theorem claim_C2_witness :
    validateFile pngFile = false ∧
    uploadDocument okService 5 pngFile testConfig =
      (errorStats pngFile 5 "不支持的文件格式", []) :=
  ⟨by decide, (claim_C2 okService 5 pngFile testConfig).2 (by decide)⟩

/-- C4: when validation, processing, embedding and storage all succeed,
`uploadDocument` returns `completed` with `totalChunks` the number of
chunks and `processingTime` the end-of-run clock value. -/
theorem claim_C4 {V : Type} (svc : DocumentService V) (now : Nat) (file : File)
    (config : ProcessingConfig) (tc : ProcessedDocument) (v : List V)
    (hv : validateFile file = true)
    (hp : svc.documentProcessor.processDocument file
      { chunkSize := config.chunkSize, overlapSize := config.overlapSize } =
        Except.ok tc)
    (he : svc.embeddingManager.embedDocuments (tc.chunks.getD []) = Except.ok v)
    (hs : svc.vectorStore.storeVectors
      (buildVectorDocs file (tc.chunks.getD []) v) = Except.ok ()) :
    (uploadDocument svc now file config).1 =
      { fileName := file.name
        fileSize := file.size
        totalChunks := (tc.chunks.getD []).length
        processingTime := now
        status := DocStatus.completed
        error := none } := by
  simp only [uploadDocument, hv, if_true, hp, he, hs]

/-- Witness for C4: the all-success service completes a text-file run
with 2 chunks at clock 5. -/
theorem claim_C4_witness :
    (uploadDocument okService 5 txtFile testConfig).1 =
      { fileName := "notes.txt"
        fileSize := 42
        totalChunks := 2
        processingTime := 5
        status := DocStatus.completed
        error := none } := by
  have h := claim_C4 okService 5 txtFile testConfig
    { chunks := some ["ab", "cd"] } [2, 2] rfl rfl rfl rfl
  simpa using h

/-- C1: `uploadDocument` never escapes with a failure: the result always
carries the input file's name and size; an `error`-status result always
has `totalChunks = 0` and a message; and each failure point —
validation, processing, embedding, storage — produces exactly the
`catch`-block stats carrying the triggering message. -/
theorem claim_C1 {V : Type} (svc : DocumentService V) (now : Nat)
    (file : File) (config : ProcessingConfig) :
    ((uploadDocument svc now file config).1.fileName = file.name ∧
      (uploadDocument svc now file config).1.fileSize = file.size) ∧
    ((uploadDocument svc now file config).1.status = DocStatus.error →
      (uploadDocument svc now file config).1.totalChunks = 0 ∧
      (uploadDocument svc now file config).1.error ≠ none) ∧
    (validateFile file = false →
      (uploadDocument svc now file config).1 =
        errorStats file now "不支持的文件格式") ∧
    (∀ e, validateFile file = true →
      svc.documentProcessor.processDocument file
        { chunkSize := config.chunkSize, overlapSize := config.overlapSize } =
          Except.error e →
      (uploadDocument svc now file config).1 = errorStats file now e) ∧
    (∀ tc e, validateFile file = true →
      svc.documentProcessor.processDocument file
        { chunkSize := config.chunkSize, overlapSize := config.overlapSize } =
          Except.ok tc →
      svc.embeddingManager.embedDocuments (tc.chunks.getD []) = Except.error e →
      (uploadDocument svc now file config).1 = errorStats file now e) ∧
    (∀ tc v e, validateFile file = true →
      svc.documentProcessor.processDocument file
        { chunkSize := config.chunkSize, overlapSize := config.overlapSize } =
          Except.ok tc →
      svc.embeddingManager.embedDocuments (tc.chunks.getD []) = Except.ok v →
      svc.vectorStore.storeVectors
        (buildVectorDocs file (tc.chunks.getD []) v) = Except.error e →
      (uploadDocument svc now file config).1 = errorStats file now e) := by
  refine ⟨?_, ?_, ?_, ?_, ?_, ?_⟩
  · unfold uploadDocument
    dsimp only
    repeat' split
    all_goals exact ⟨rfl, rfl⟩
  · unfold uploadDocument
    dsimp only
    repeat' split
    all_goals intro hst
    all_goals first
    | exact ⟨rfl, by simp [errorStats]⟩
    | simp [errorStats] at hst
  · intro hv
    simp [uploadDocument, hv]
  · intro e hv hp
    simp [uploadDocument, hv, hp]
  · intro tc e hv hp he
    simp [uploadDocument, hv, hp, he]
  · intro tc v e hv hp he hs
    simp [uploadDocument, hv, hp, he, hs]

/-- Witness for C1: a service whose embedding call fails yields exactly
the catch-block stats carrying the embedding failure message. -/
theorem claim_C1_witness :
    (uploadDocument failEmbedService 5 txtFile testConfig).1 =
      errorStats txtFile 5 "embed down" :=
  (claim_C1 failEmbedService 5 txtFile testConfig).2.2.2.2.1
    { chunks := some ["ab", "cd"] } "embed down" rfl rfl rfl

/-- C6: an empty chunk list is not an error: when processing yields no
chunks (and the embedding and store calls on empty input succeed),
`uploadDocument` proceeds through the remaining steps and returns
`completed` with `totalChunks = 0`. -/
theorem claim_C6 {V : Type} (svc : DocumentService V) (now : Nat)
    (file : File) (config : ProcessingConfig) (tc : ProcessedDocument)
    (v : List V)
    (hv : validateFile file = true)
    (hp : svc.documentProcessor.processDocument file
      { chunkSize := config.chunkSize, overlapSize := config.overlapSize } =
        Except.ok tc)
    (hc : tc.chunks.getD [] = [])
    (he : svc.embeddingManager.embedDocuments [] = Except.ok v)
    (hs : svc.vectorStore.storeVectors [] = Except.ok ()) :
    (uploadDocument svc now file config).1.status = DocStatus.completed ∧
    (uploadDocument svc now file config).1.totalChunks = 0 ∧
    (uploadDocument svc now file config).2 =
      [Event.processCall file
        { chunkSize := config.chunkSize, overlapSize := config.overlapSize },
       Event.embedCall [], Event.storeCall []] := by
  have hb : buildVectorDocs file [] v = [] := rfl
  simp [uploadDocument, hv, hp, hc, he, hs, hb]

/-- Witness for C6: a processor returning zero chunks still completes
with `totalChunks = 0` and the embed/store calls are made on empty
input. -/
theorem claim_C6_witness :
    (uploadDocument emptyChunksService 5 txtFile testConfig).1.status =
      DocStatus.completed ∧
    (uploadDocument emptyChunksService 5 txtFile testConfig).1.totalChunks = 0 ∧
    (uploadDocument emptyChunksService 5 txtFile testConfig).2 =
      [Event.processCall txtFile { chunkSize := 1000, overlapSize := 200 },
       Event.embedCall [], Event.storeCall []] :=
  claim_C6 emptyChunksService 5 txtFile testConfig
    { chunks := some [] } [] rfl rfl rfl rfl rfl

/-- C8: the constructor builds the embedding manager from the three
environment settings; an unset variable falls back to the documented
mock/default value, and a set (non-empty) variable is used as-is. -/
theorem claim_C8 {V : Type} (penv : String → Option String)
    (dp : DocumentProcessor) (embedFn : List String → Except String (List V))
    (vs : VectorStore V) :
    ((penv "DEEPSEEK_API_KEY" = none →
        (mkDocumentService penv dp embedFn vs).embeddingManager.apiKey =
          "mock-api-key") ∧
      (∀ s, penv "DEEPSEEK_API_KEY" = some s → s ≠ "" →
        (mkDocumentService penv dp embedFn vs).embeddingManager.apiKey = s)) ∧
    ((penv "DEEPSEEK_API_BASE" = none →
        (mkDocumentService penv dp embedFn vs).embeddingManager.apiBase =
          "https://api.deepseek.com") ∧
      (∀ s, penv "DEEPSEEK_API_BASE" = some s → s ≠ "" →
        (mkDocumentService penv dp embedFn vs).embeddingManager.apiBase = s)) ∧
    ((penv "EMBEDDING_MODEL" = none →
        (mkDocumentService penv dp embedFn vs).embeddingManager.model =
          "mock-embedding-model") ∧
      (∀ s, penv "EMBEDDING_MODEL" = some s → s ≠ "" →
        (mkDocumentService penv dp embedFn vs).embeddingManager.model = s)) := by
  refine ⟨⟨?_, ?_⟩, ⟨?_, ?_⟩, ⟨?_, ?_⟩⟩
  · intro h
    simp [mkDocumentService, jsOrElse, h]
  · intro s h hne
    simp [mkDocumentService, jsOrElse, h, hne]
  · intro h
    simp [mkDocumentService, jsOrElse, h]
  · intro s h hne
    simp [mkDocumentService, jsOrElse, h, hne]
  · intro h
    simp [mkDocumentService, jsOrElse, h]
  · intro s h hne
    simp [mkDocumentService, jsOrElse, h, hne]

/-- Witness for C8: with every environment variable unset, the three
settings are the documented mock/default values. -/
theorem claim_C8_witness :
    (mkDocumentService (fun _ => none) okProcessor
      (fun ts => Except.ok (ts.map String.length))
      okStore).embeddingManager.apiKey = "mock-api-key" ∧
    (mkDocumentService (fun _ => none) okProcessor
      (fun ts => Except.ok (ts.map String.length))
      okStore).embeddingManager.apiBase = "https://api.deepseek.com" ∧
    (mkDocumentService (fun _ => none) okProcessor
      (fun ts => Except.ok (ts.map String.length))
      okStore).embeddingManager.model = "mock-embedding-model" :=
  ⟨(claim_C8 (fun _ => none) okProcessor
      (fun ts => Except.ok (ts.map String.length)) okStore).1.1 rfl,
   (claim_C8 (fun _ => none) okProcessor
      (fun ts => Except.ok (ts.map String.length)) okStore).2.1.1 rfl,
   (claim_C8 (fun _ => none) okProcessor
      (fun ts => Except.ok (ts.map String.length)) okStore).2.2.1 rfl⟩

/-- C3: a run reaching the storage step with `n` chunks and `n` vectors
passes to `storeVectors` exactly `n` records; the `i`-th has id
`<fileName>-<i>`, the `i`-th vector, and payload carrying the chunk
text, the source file name and the index. -/
theorem claim_C3 {V : Type} (svc : DocumentService V) (now : Nat)
    (file : File) (config : ProcessingConfig) (tc : ProcessedDocument)
    (cs : List String) (v : List V)
    (hv : validateFile file = true)
    (hp : svc.documentProcessor.processDocument file
      { chunkSize := config.chunkSize, overlapSize := config.overlapSize } =
        Except.ok tc)
    (hc : tc.chunks = some cs)
    (he : svc.embeddingManager.embedDocuments cs = Except.ok v)
    (hlen : v.length = cs.length) :
    ∃ r, (uploadDocument svc now file config).2 =
        [Event.processCall file
          { chunkSize := config.chunkSize, overlapSize := config.overlapSize },
         Event.embedCall cs, Event.storeCall r] ∧
      r.length = cs.length ∧
      ∀ i, i < cs.length →
        ∃ ci vi, cs[i]? = some ci ∧ v[i]? = some vi ∧
          r[i]? = some
            { id := file.name ++ "-" ++ toString i
              vector := some vi
              payload :=
                { text := ci
                  metadata := { source := file.name, index := i } } } := by
  refine ⟨buildVectorDocs file cs v, ?_, buildVectorDocs_length file cs v, ?_⟩
  · simp only [uploadDocument, hv, if_true, hp, hc, Option.getD_some, he]
    cases hst : svc.vectorStore.storeVectors (buildVectorDocs file cs v) <;>
      simp [hst]
  · intro i hi
    have hiv : i < v.length := by omega
    refine ⟨cs.get ⟨i, hi⟩, v.get ⟨i, hiv⟩, ?_, ?_, ?_⟩
    · simp [List.getElem?_eq_getElem hi]
    · simp [List.getElem?_eq_getElem hiv]
    · rw [buildVectorDocs_getElem file cs v i hi]
      simp [List.getElem?_eq_getElem hiv]

/-- Witness for C3: the all-success service stores two records with the
expected ids, vectors and payloads. -/
theorem claim_C3_witness :
    ∃ r, (uploadDocument okService 5 txtFile testConfig).2 =
        [Event.processCall txtFile { chunkSize := 1000, overlapSize := 200 },
         Event.embedCall ["ab", "cd"], Event.storeCall r] ∧
      r.length = (["ab", "cd"] : List String).length ∧
      ∀ i, i < (["ab", "cd"] : List String).length →
        ∃ ci vi, (["ab", "cd"] : List String)[i]? = some ci ∧
          ([2, 2] : List Nat)[i]? = some vi ∧
          r[i]? = some
            { id := "notes.txt" ++ "-" ++ toString i
              vector := some vi
              payload :=
                { text := ci
                  metadata := { source := "notes.txt", index := i } } } :=
  claim_C3 okService 5 txtFile testConfig { chunks := some ["ab", "cd"] }
    ["ab", "cd"] [2, 2] rfl rfl rfl rfl rfl

/-- C10: no length check between embedding and storage: when the vector
list is shorter than the chunk list (and the store accepts the
records), one record is still built per chunk, the records at missing
positions carry an absent (`undefined`) vector, and the run completes. -/
theorem claim_C10 {V : Type} (svc : DocumentService V) (now : Nat)
    (file : File) (config : ProcessingConfig) (tc : ProcessedDocument)
    (cs : List String) (v : List V)
    (hv : validateFile file = true)
    (hp : svc.documentProcessor.processDocument file
      { chunkSize := config.chunkSize, overlapSize := config.overlapSize } =
        Except.ok tc)
    (hc : tc.chunks = some cs)
    (he : svc.embeddingManager.embedDocuments cs = Except.ok v)
    (hshort : v.length < cs.length)
    (hs : svc.vectorStore.storeVectors (buildVectorDocs file cs v) =
      Except.ok ()) :
    (uploadDocument svc now file config).1.status = DocStatus.completed ∧
    ∃ r, (uploadDocument svc now file config).2 =
        [Event.processCall file
          { chunkSize := config.chunkSize, overlapSize := config.overlapSize },
         Event.embedCall cs, Event.storeCall r] ∧
      r.length = cs.length ∧
      ∀ i, v.length ≤ i → i < cs.length →
        ∃ q, r[i]? = some q ∧ q.vector = none := by
  constructor
  · simp [uploadDocument, hv, hp, hc, he, hs]
  · refine ⟨buildVectorDocs file cs v, ?_, buildVectorDocs_length file cs v, ?_⟩
    · simp [uploadDocument, hv, hp, hc, he, hs]
    · intro i hge hlt
      refine ⟨_, buildVectorDocs_getElem file cs v i hlt, ?_⟩
      simp [List.getElem?_eq_none hge]

/-- Witness for C10: two chunks but a single vector still complete, the
second stored record carrying no vector. -/
theorem claim_C10_witness :
    (uploadDocument shortVectorsService 5 txtFile testConfig).1.status =
      DocStatus.completed ∧
    ∃ r, (uploadDocument shortVectorsService 5 txtFile testConfig).2 =
        [Event.processCall txtFile { chunkSize := 1000, overlapSize := 200 },
         Event.embedCall ["ab", "cd"], Event.storeCall r] ∧
      r.length = (["ab", "cd"] : List String).length ∧
      ∀ i, ([9] : List Nat).length ≤ i → i < (["ab", "cd"] : List String).length →
        ∃ q, r[i]? = some q ∧ q.vector = none :=
  claim_C10 shortVectorsService 5 txtFile testConfig
    { chunks := some ["ab", "cd"] } ["ab", "cd"] [9]
    rfl rfl rfl rfl (by decide) rfl

/-- C5: for every text of length `L` and overlap `O <` chunk size `C`,
the Chunker produces `ceil((L - O) / (C - O))` chunks when `L > C` and
exactly one chunk otherwise, and chunk `i` is the slice of the text
starting at offset `i * (C - O)` spanning up to `C` characters, clamped
to the end of the text. -/
theorem claim_C5 (text : List Char) (C O : Nat) (hO : O < C) :
    (chunkText text C O).length = specChunkCount text.length C O ∧
    ∀ i, i < (chunkText text C O).length →
      (chunkText text C O)[i]? = some ((text.drop (i * (C - O))).take C) := by
  constructor
  · rw [chunkText, chunkLoop_length text C O hO 0, specChunkCount]
    simp
  · intro i hi
    have h := chunkLoop_getElem text C O 0 i hi
    simpa using h

/-- Witness for C5: a 10-character text with chunk size 4 and overlap 1
has the predicted chunk count and slice contents. -/
theorem claim_C5_witness :
    1 < 4 ∧
    ((chunkText (List.replicate 10 'a') 4 1).length =
        specChunkCount (List.replicate 10 'a').length 4 1 ∧
      ∀ i, i < (chunkText (List.replicate 10 'a') 4 1).length →
        (chunkText (List.replicate 10 'a') 4 1)[i]? =
          some (((List.replicate 10 'a').drop (i * (4 - 1))).take 4)) :=
  ⟨by decide, claim_C5 (List.replicate 10 'a') 4 1 (by decide)⟩
